import Mathlib

/-!
Shallow embedding of `source/ota_over_mqtt_demo.c` (OTA-over-MQTT demo for
coreMQTT Agent) and proofs about its buffer pool, command bridge, topic
classifier, job-action dispatcher and inbound dispatch callbacks.

C strings are modelled as `List Char` holding the characters before the
terminating NUL; machine string primitives (`strncmp`) are modelled
faithfully including their stop-at-NUL behaviour.
-/

namespace OtaDemo

/-- NUL character, the C string terminator. -/
def nulChar : Char := Char.ofNat 0

/-- Path separator used by the topic grammar. -/
def slashChar : Char := '/'

/-- Model of C `strncmp(s1, s2, n)`: compares at most `n` characters,
stopping at the first difference or at a NUL; only the sign of the result
is specified by C, so the model returns -1, 0 or 1.  A `List Char`
argument stands for the NUL-terminated string holding exactly those
characters, so an exhausted list is a NUL on that side. -/
def cstrncmp : List Char → List Char → Nat → Int
  | _, _, 0 => 0
  | [], [], _ + 1 => 0
  | [], c2 :: _, _ + 1 => if c2 = nulChar then 0 else -1
  | c1 :: _, [], _ + 1 => if c1 = nulChar then 0 else 1
  | c1 :: t1, c2 :: t2, n + 1 =>
      if c1 = c2 then (if c1 = nulChar then 0 else cstrncmp t1 t2 n)
      else if c1.toNat < c2.toNat then -1 else 1

/-- The scanning loops of `getOtaMessageType` count the characters of the
current topic segment up to the next `/` (or the end of the topic). -/
def fieldLen (s : List Char) : Nat := (s.takeWhile (fun c => c != slashChar)).length

/-- `OTA_TOPIC_PREFIX`, the common leading literal of all OTA topics. -/
def otaTopicHead : List Char := "$aws/things/".toList

/-- `OTA_TOPIC_PREFIX_LENGTH` (`sizeof(OTA_TOPIC_PREFIX) - 1`). -/
def OTA_TOPIC_PREFIX_LENGTH : Nat := otaTopicHead.length

/-- `OTA_TOPIC_JOBS`, the job-category keyword. -/
def otaTopicJobs : List Char := "jobs".toList

/-- `OTA_TOPIC_STREAM`, the data-stream-category keyword. -/
def otaTopicStream : List Char := "streams".toList

/-- Enum `OtaMessageType_t`; `OtaNumOfMessageType` doubles as the
"unrecognized" return value of `getOtaMessageType`. -/
inductive OtaMessageType_t
  | OtaMessageTypeJob
  | OtaMessageTypeStream
  | OtaNumOfMessageType
deriving DecidableEq, Repr

open OtaMessageType_t

/-- Model of `getOtaMessageType` (lines 482-576).  `clientId` stands for
the configuration macro `democonfigCLIENT_IDENTIFIER`; the C
`topicFilterLength` argument equals the length of the topic string.  The
function checks the fixed leading literal with `strncmp`, scans the
thing-name segment, compares it to `clientId` with `strncmp` over the
segment's own length, then scans the category segment and compares it to
each keyword with `strncmp` over the segment's own length. -/
def getOtaMessageType (clientId pTopicFilter : List Char) : OtaMessageType_t :=
  if cstrncmp pTopicFilter otaTopicHead OTA_TOPIC_PREFIX_LENGTH = 0 then
    let f1 := fieldLen (pTopicFilter.drop OTA_TOPIC_PREFIX_LENGTH)
    if 0 < f1 then
      if cstrncmp (pTopicFilter.drop OTA_TOPIC_PREFIX_LENGTH) clientId f1 = 0 then
        let i2 := OTA_TOPIC_PREFIX_LENGTH + f1 + 1
        let f2 := fieldLen (pTopicFilter.drop i2)
        if 0 < f2 then
          if cstrncmp (pTopicFilter.drop i2) otaTopicJobs f2 = 0 then OtaMessageTypeJob
          else if cstrncmp (pTopicFilter.drop i2) otaTopicStream f2 = 0 then OtaMessageTypeStream
          else OtaNumOfMessageType
        else OtaNumOfMessageType
      else OtaNumOfMessageType
    else OtaNumOfMessageType
  else OtaNumOfMessageType

example : getOtaMessageType "thing".toList "$aws/things/thing/jobs/next".toList = OtaMessageTypeJob := by decide
example : getOtaMessageType "thing".toList "$aws/things/thing/streams/x".toList = OtaMessageTypeStream := by decide
example : getOtaMessageType "thing".toList "$aws/things/thing/other/x".toList = OtaNumOfMessageType := by decide
example : getOtaMessageType "thing".toList "$aws/things/thing/job".toList = OtaMessageTypeJob := by decide
example : getOtaMessageType "thing".toList "hello".toList = OtaNumOfMessageType := by decide
example : getOtaMessageType "thing".toList "$aws".toList = OtaNumOfMessageType := by decide
example : getOtaMessageType "thing".toList "$aws/things//jobs".toList = OtaNumOfMessageType := by decide
example : getOtaMessageType "thing".toList "$aws/things/thing//x".toList = OtaNumOfMessageType := by decide

/-! ### Buffer pool (lines 432-472)

The statically allocated array `eventBuffer[otaconfigMAX_NUM_OTA_DATA_BUFFERS]`
is modelled by its `bufferUsed` flags, a `List Bool`.  Both operations first
take `xBufferSemaphore`; `semOk` models whether the take succeeded (with
`portMAX_DELAY` it does in practice, but the code has an explicit failure
branch that only logs).  -/

/-- Model of the scan loop of `prvOTAEventBufferGet`: first slot with
`bufferUsed == false` is marked used and returned (as its index); `none`
models the `NULL` return when all slots are busy. -/
def bufferScan : List Bool → Option Nat × List Bool
  | [] => (none, [])
  | b :: rest =>
    if b = false then (some 0, true :: rest)
    else
      let r := bufferScan rest
      (r.1.map (· + 1), b :: r.2)

/-- Model of `prvOTAEventBufferGet` (lines 447-472): on semaphore failure it
logs and returns `NULL` without scanning; otherwise it scans the pool. -/
def prvOTAEventBufferGet (semOk : Bool) (pool : List Bool) : Option Nat × List Bool :=
  if semOk then bufferScan pool else (none, pool)

/-- Model of `prvOTAEventBufferFree` (lines 432-443).  The result is
`Option`-valued so that a `configASSERT` failure could be modelled as
`none`; the source function contains no `configASSERT` at all, so every
branch returns `some`: on semaphore success it unconditionally sets
`bufferUsed = false`, on failure it only logs. -/
def prvOTAEventBufferFree (semOk : Bool) (pool : List Bool) (i : Nat) : Option (List Bool) :=
  if semOk then some (pool.set i false) else some pool

/-- Sequence of `n` calls to `prvOTAEventBufferGet` (semaphore succeeding),
collecting the returned slots and threading the pool state. -/
def runBufferGets : Nat → List Bool → List (Option Nat) × List Bool
  | 0, pool => ([], pool)
  | n + 1, pool =>
    let r := prvOTAEventBufferGet true pool
    let rest := runBufferGets n r.2
    (r.1 :: rest.1, rest.2)

example : runBufferGets 3 [false, false] = ([some 0, some 1, none], [true, true]) := by decide
example : prvOTAEventBufferFree true [true, true] 0 = some [false, true] := by decide

/-! ### Command bridge (lines 765-833, 1200-1259, 1299-1361, 1363-1421)

Each bridge operation enqueues a command on the shared MQTT agent and then
blocks on a task notification with timeout `otaexampleMQTT_TIMEOUT_MS`.  The
external agent's behaviour for one operation is abstracted by `AgentEnv`:
the enqueue result of `MQTTAgent_Publish` / `MQTTAgent_Subscribe` /
`MQTTAgent_Unsubscribe`, and the outcome of `xTaskNotifyWait` (`some v`
when the completion callback stored value `v` and notified the caller,
`none` when the bounded wait timed out). -/

/-- The subset of coreMQTT `MQTTStatus_t` values this file manipulates. -/
inductive MQTTStatus_t
  | MQTTSuccess
  | MQTTBadParameter
  | MQTTNoMemory
  | MQTTSendFailed
  | MQTTRecvFailed
deriving DecidableEq, Repr

open MQTTStatus_t

/-- External behaviour of the MQTT agent for one bridge operation. -/
structure AgentEnv where
  enqueueStatus : MQTTStatus_t
  notifyResult : Option MQTTStatus_t
deriving DecidableEq, Repr

/-- Model of `prvSubscribeToTopic` (lines 1200-1259): after a successful
enqueue it waits for the notification; on wake it returns the stored
result, on timeout it returns `MQTTRecvFailed`; an enqueue failure is
returned as-is. -/
def prvSubscribeToTopic (env : AgentEnv) : MQTTStatus_t :=
  if env.enqueueStatus = MQTTSuccess then
    match env.notifyResult with
    | some v => v
    | none => MQTTRecvFailed
  else env.enqueueStatus

/-- Model of `prvUnSubscribeFromTopic` (lines 1363-1421): identical wait
structure to subscribe, timeout also yields `MQTTRecvFailed`. -/
def prvUnSubscribeFromTopic (env : AgentEnv) : MQTTStatus_t :=
  if env.enqueueStatus = MQTTSuccess then
    match env.notifyResult with
    | some v => v
    | none => MQTTRecvFailed
  else env.enqueueStatus

/-- Model of the `mqttStatus` computed by `prvMQTTPublish` (lines
1326-1344): after a successful enqueue, a timed-out wait yields
`MQTTSendFailed` (not `MQTTRecvFailed`), a wake yields the stored value. -/
def prvMQTTPublishMqttStatus (env : AgentEnv) : MQTTStatus_t :=
  if env.enqueueStatus = MQTTSuccess then
    match env.notifyResult with
    | none => MQTTSendFailed
    | some v => v
  else env.enqueueStatus

/-- Enum `OtaMqttStatus_t` values used by the OTA interface wrappers. -/
inductive OtaMqttStatus_t
  | OtaMqttSuccess
  | OtaMqttSubscribeFailed
  | OtaMqttPublishFailed
  | OtaMqttUnsubscribeFailed
deriving DecidableEq, Repr

open OtaMqttStatus_t

/-- Model of `prvMQTTPublish`'s return value (lines 1299-1361). -/
def prvMQTTPublish (env : AgentEnv) : OtaMqttStatus_t :=
  if prvMQTTPublishMqttStatus env ≠ MQTTSuccess then OtaMqttPublishFailed
  else OtaMqttSuccess

/-- Model of `prvMQTTSubscribe` (lines 1261-1297).  `none` models a
`configASSERT` failure: the function asserts `pTopicFilter != NULL`
(a NUL-terminated list is never NULL), `topicFilterLength > 0`, and
`getOtaMessageType(...) < OtaNumOfMessageType` before subscribing and
selecting the callback from `otaMessageCallback[otaMessageType]`. -/
def prvMQTTSubscribe (clientId pTopicFilter : List Char) (env : AgentEnv) :
    Option OtaMqttStatus_t :=
  if pTopicFilter.length = 0 then none
  else if getOtaMessageType clientId pTopicFilter = OtaNumOfMessageType then none
  else if prvSubscribeToTopic env ≠ MQTTSuccess then some OtaMqttSubscribeFailed
  else some OtaMqttSuccess

example : prvSubscribeToTopic ⟨MQTTSuccess, none⟩ = MQTTRecvFailed := by decide
example : prvMQTTPublishMqttStatus ⟨MQTTSuccess, none⟩ = MQTTSendFailed := by decide
example : prvMQTTSubscribe "thing".toList "bad".toList ⟨MQTTSuccess, some MQTTSuccess⟩ = none := by decide

/-! ### Job action dispatcher (lines 727-979)

`JSON_Search` over the job document is external (coreJSON); the document is
abstracted by the values it yields for the three keys the dispatcher
queries.  `prvSendUpdateForJob` publishes one status report through the
command bridge; the model records the reports in order.  `xPublishToTopic`
(the relay publish of the `publish` action) is external; `relayOk` models
its result. -/

/-- Enum `JobActionType` (lines 733-739). -/
inductive JobActionType
  | JOB_ACTION_PRINT
  | JOB_ACTION_PUBLISH
  | JOB_ACTION_EXIT
  | JOB_ACTION_UNKNOWN
deriving DecidableEq, Repr

open JobActionType

/-- Keyword for the `print` action. -/
def printKeyword : List Char := "print".toList

/-- Keyword for the `publish` action. -/
def publishKeyword : List Char := "publish".toList

/-- Keyword for the `exit` action. -/
def exitKeyword : List Char := "exit".toList

/-- Model of `prvGetAction` (lines 741-762): the action value (an
`xActionLength`-character slice of the document) is compared against each
keyword with `strncmp` bounded by the action's own length. -/
def prvGetAction (pcAction : List Char) : JobActionType :=
  if cstrncmp pcAction printKeyword pcAction.length = 0 then JOB_ACTION_PRINT
  else if cstrncmp pcAction publishKeyword pcAction.length = 0 then JOB_ACTION_PUBLISH
  else if cstrncmp pcAction exitKeyword pcAction.length = 0 then JOB_ACTION_EXIT
  else JOB_ACTION_UNKNOWN

example : prvGetAction "print".toList = JOB_ACTION_PRINT := by decide
example : prvGetAction "".toList = JOB_ACTION_PRINT := by decide
example : prvGetAction "pub".toList = JOB_ACTION_PUBLISH := by decide
example : prvGetAction "ex".toList = JOB_ACTION_EXIT := by decide
example : prvGetAction "bogus".toList = JOB_ACTION_UNKNOWN := by decide
example : prvGetAction "prints".toList = JOB_ACTION_UNKNOWN := by decide

/-- Terminal job status carried by `MAKE_STATUS_REPORT`. -/
inductive JobStatus
  | SUCCEEDED
  | FAILED
deriving DecidableEq, Repr

open JobStatus

/-- Abstraction of the job document: the value each queried JSON key has,
`none` when `JSON_Search` does not find the key. -/
structure JobDoc where
  action : Option (List Char)
  message : Option (List Char)
  topic : Option (List Char)
deriving DecidableEq, Repr

/-- Observable effects of one `prvProcessJobDocument` invocation. -/
structure JobOutcome where
  reports : List JobStatus
  relayAttempted : Bool
  demoErrorFlag : Bool
  terminateRequested : Bool
deriving DecidableEq, Repr

/-- Model of `prvProcessJobDocument` (lines 835-979).  Missing `action`
key reports FAILED; `exit` reports SUCCEEDED then terminates the agent;
`print` requires `message` (SUCCEEDED, else FAILED); `publish` requires
`topic` then `message` (FAILED without relaying when either is missing),
relays via `xPublishToTopic`, sets `xDemoEncounteredError` when the relay
fails, and reports SUCCEEDED regardless; an unknown action only logs via
`configPRINTF`. -/
def prvProcessJobDocument (doc : JobDoc) (relayOk : Bool) : JobOutcome :=
  match doc.action with
  | none => ⟨[FAILED], false, false, false⟩
  | some a =>
    match prvGetAction a with
    | JOB_ACTION_EXIT => ⟨[SUCCEEDED], false, false, true⟩
    | JOB_ACTION_PRINT =>
        match doc.message with
        | some _ => ⟨[SUCCEEDED], false, false, false⟩
        | none => ⟨[FAILED], false, false, false⟩
    | JOB_ACTION_PUBLISH =>
        match doc.topic with
        | none => ⟨[FAILED], false, false, false⟩
        | some _ =>
          match doc.message with
          | some _ => ⟨[SUCCEEDED], true, !relayOk, false⟩
          | none => ⟨[FAILED], false, false, false⟩
    | JOB_ACTION_UNKNOWN => ⟨[], false, false, false⟩

example : prvProcessJobDocument ⟨some "print".toList, some "hi".toList, none⟩ true
    = ⟨[SUCCEEDED], false, false, false⟩ := by decide
example : prvProcessJobDocument ⟨some "bogus".toList, some "hi".toList, some "t".toList⟩ true
    = ⟨[], false, false, false⟩ := by decide
example : prvProcessJobDocument ⟨some "publish".toList, some "m".toList, some "t".toList⟩ false
    = ⟨[SUCCEEDED], true, true, false⟩ := by decide

/-! ### Inbound job-message dispatch (lines 1052-1134)

`Jobs_MatchTopic` is external (AWS IoT Jobs library); its outputs — the
topic kind `api` and the extracted job id — are parameters.  The callback's
`configASSERT`s (non-NULL publish info, payload within `OTA_DATA_BLOCK_SIZE`,
`Jobs_MatchTopic` success) are preconditions of the modelled dispatch. -/

/-- The `JobsTopic_t` kinds this callback distinguishes. -/
inductive JobsTopic_t
  | JobsDescribeSuccess
  | JobsNextJobChanged
  | JobsUpdateSuccess
  | JobsStartNextFailed
  | JobsUpdateFailed
  | JobsInvalidTopic
deriving DecidableEq, Repr

open JobsTopic_t

/-- Which path `prvProcessIncomingJobMessage` takes for a message. -/
inductive JobMessageAction
  | otaEnqueue      -- pool buffer acquired, OtaAgentEventReceivedJobDocument sent
  | otaDrop         -- OTA branch but the pool was exhausted, message dropped
  | handleNextJob   -- prvNextJobHandler (job action dispatcher) invoked
  | logOnly         -- acknowledgement/rejection paths, logging only
deriving DecidableEq, Repr

open JobMessageAction

/-- The reserved OTA job-id leading literal `"AFR_OTA"`. -/
def afrOta : List Char := "AFR_OTA".toList

/-- Model of the dispatch in `prvProcessIncomingJobMessage` (lines
1066-1134).  The branch condition is transcribed exactly from line 1081:
`if( strncmp( pJobId, "AFR_OTA", ( strlen( "AFR_OTA" ) == 0 ) ) )` — the
comparison length is the C boolean `strlen("AFR_OTA") == 0` (which is 0)
and the raw `strncmp` result is the truth value. -/
def prvProcessIncomingJobMessage (pJobId : List Char) (api : JobsTopic_t)
    (bufferAvailable : Bool) : JobMessageAction :=
  if cstrncmp pJobId afrOta (if afrOta.length = 0 then 1 else 0) ≠ 0 then
    if bufferAvailable then otaEnqueue else otaDrop
  else
    match api with
    | JobsDescribeSuccess => handleNextJob
    | JobsNextJobChanged => handleNextJob
    | _ => logOnly

example : prvProcessIncomingJobMessage "AFR_OTA-abc".toList JobsDescribeSuccess true
    = handleNextJob := by decide
example : prvProcessIncomingJobMessage "customjob".toList JobsUpdateSuccess true
    = logOnly := by decide

/-! ### Lemmas about `cstrncmp` and `fieldLen` -/

theorem cstrncmp_zero (s kw : List Char) : cstrncmp s kw 0 = 0 := by
  cases s <;> cases kw <;> rfl

theorem cstrncmp_append_left (a b kw : List Char) (n : Nat) (h : n ≤ a.length) :
    cstrncmp (a ++ b) kw n = cstrncmp a kw n := by
  induction n generalizing a kw with
  | zero => simp [cstrncmp_zero]
  | succ m ih =>
    cases a with
    | nil => simp at h
    | cons c t =>
      cases kw with
      | nil => simp [cstrncmp]
      | cons d u =>
        by_cases hcd : c = d
        · subst hcd
          by_cases hcn : c = nulChar
          · simp [cstrncmp, hcn]
          · simp only [List.cons_append, cstrncmp, if_pos rfl, eq_self_iff_true,
              if_true, if_neg hcn]
            exact ih t u (by simpa using h)
        · simp [cstrncmp, hcd]

theorem cstrncmp_eq_zero_iff_take_kw (s kw : List Char) (hkw : nulChar ∉ kw) :
    cstrncmp s kw kw.length = 0 ↔ s.take kw.length = kw := by
  induction kw generalizing s with
  | nil => simpa using cstrncmp_zero s []
  | cons d u ih =>
    have hd : d ≠ nulChar := fun h => hkw (h ▸ List.mem_cons_self d u)
    have hu : nulChar ∉ u := fun h => hkw (List.mem_cons_of_mem d h)
    cases s with
    | nil =>
      simp only [List.length_cons, cstrncmp, if_neg hd, List.take_nil]
      constructor
      · intro h; exact absurd h (by decide)
      · intro h; exact absurd h (by simp)
    | cons c t =>
      by_cases hcd : c = d
      · subst hcd
        simp only [List.length_cons, cstrncmp, eq_self_iff_true, if_true,
          if_neg hd, List.take_succ_cons, List.cons.injEq, true_and]
        exact ih t hu
      · simp only [List.length_cons, cstrncmp, if_neg hcd, List.take_succ_cons,
          List.cons.injEq]
        constructor
        · intro h
          by_cases hlt : c.toNat < d.toNat
          · rw [if_pos hlt] at h; exact absurd h (by decide)
          · rw [if_neg hlt] at h; exact absurd h (by decide)
        · intro h; exact absurd h.1 hcd

theorem cstrncmp_eq_zero_iff_take_self (s kw : List Char) (hs : nulChar ∉ s)
    (hkw : nulChar ∉ kw) :
    cstrncmp s kw s.length = 0 ↔ s = kw.take s.length := by
  induction s generalizing kw with
  | nil => simpa using cstrncmp_zero [] kw
  | cons c t ih =>
    have hc : c ≠ nulChar := fun h => hs (h ▸ List.mem_cons_self c t)
    have ht : nulChar ∉ t := fun h => hs (List.mem_cons_of_mem c h)
    cases kw with
    | nil =>
      simp only [List.length_cons, cstrncmp, if_neg hc, List.take_nil]
      constructor
      · intro h; exact absurd h (by decide)
      · intro h; exact absurd h (by simp)
    | cons d u =>
      have hu : nulChar ∉ u := fun h => hkw (List.mem_cons_of_mem d h)
      by_cases hcd : c = d
      · subst hcd
        simp only [List.length_cons, cstrncmp, eq_self_iff_true, if_true,
          if_neg hc, List.take_succ_cons, List.cons.injEq, true_and]
        exact ih u ht hu
      · simp only [List.length_cons, cstrncmp, if_neg hcd, List.take_succ_cons,
          List.cons.injEq]
        constructor
        · intro h
          by_cases hlt : c.toNat < d.toNat
          · rw [if_pos hlt] at h; exact absurd h (by decide)
          · rw [if_neg hlt] at h; exact absurd h (by decide)
        · intro h; exact absurd h.1 hcd

theorem fieldLen_slash_cons (b : List Char) : fieldLen (slashChar :: b) = 0 := by
  simp [fieldLen, List.takeWhile_cons]

theorem fieldLen_no_slash (a : List Char) (ha : slashChar ∉ a) :
    fieldLen a = a.length := by
  induction a with
  | nil => rfl
  | cons c t ih =>
    have hc : c ≠ slashChar := fun h => ha (h ▸ List.mem_cons_self c t)
    have ht : slashChar ∉ t := fun h => ha (List.mem_cons_of_mem c h)
    simp [fieldLen, List.takeWhile_cons, hc] at ih ⊢
    exact ih ht

theorem fieldLen_append_slash (a b : List Char) (ha : slashChar ∉ a) :
    fieldLen (a ++ slashChar :: b) = a.length := by
  induction a with
  | nil => simpa using fieldLen_slash_cons b
  | cons c t ih =>
    have hc : c ≠ slashChar := fun h => ha (h ▸ List.mem_cons_self c t)
    have ht : slashChar ∉ t := fun h => ha (List.mem_cons_of_mem c h)
    simp [fieldLen, List.takeWhile_cons, hc] at ih ⊢
    exact ih ht

/-! ### Behaviour of the classifier on well-formed topics -/

/-- The category `getOtaMessageType` actually assigns to a category
segment: because the keyword comparison is an `strncmp` bounded by the
segment's own length, every non-empty leading slice of a keyword matches
that keyword (the first match, `jobs`, wins). -/
def segmentCategory (seg : List Char) : OtaMessageType_t :=
  if seg = [] then OtaNumOfMessageType
  else if seg = otaTopicJobs.take seg.length then OtaMessageTypeJob
  else if seg = otaTopicStream.take seg.length then OtaMessageTypeStream
  else OtaNumOfMessageType

theorem getOtaMessageType_structured (cid seg rest : List Char)
    (hcid0 : cid ≠ []) (hcidSlash : slashChar ∉ cid) (hcidNul : nulChar ∉ cid)
    (hsegSlash : slashChar ∉ seg) (hsegNul : nulChar ∉ seg)
    (hrest : rest = [] ∨ ∃ t, rest = slashChar :: t) :
    getOtaMessageType cid (otaTopicHead ++ cid ++ slashChar :: (seg ++ rest))
      = segmentCategory seg := by
  set T : List Char := otaTopicHead ++ cid ++ slashChar :: (seg ++ rest) with hT
  have hheadNul : nulChar ∉ otaTopicHead := by decide
  -- the leading literal matches
  have hpre : cstrncmp T otaTopicHead OTA_TOPIC_PREFIX_LENGTH = 0 := by
    have : T.take otaTopicHead.length = otaTopicHead := by
      rw [hT]; exact List.take_left otaTopicHead _
    exact (cstrncmp_eq_zero_iff_take_kw T otaTopicHead hheadNul).mpr this
  -- after the literal comes the thing name
  have hdrop1 : T.drop OTA_TOPIC_PREFIX_LENGTH = cid ++ slashChar :: (seg ++ rest) := by
    rw [hT]; exact List.drop_left otaTopicHead _
  have hf1 : fieldLen (cid ++ slashChar :: (seg ++ rest)) = cid.length :=
    fieldLen_append_slash cid _ hcidSlash
  have hcidpos : 0 < cid.length := List.length_pos.mpr hcid0
  have hid : cstrncmp (cid ++ slashChar :: (seg ++ rest)) cid cid.length = 0 := by
    refine (cstrncmp_eq_zero_iff_take_kw _ cid hcidNul).mpr ?_
    exact List.take_left cid _
  -- after the thing name and its slash comes the category segment
  have hdrop2 : T.drop (OTA_TOPIC_PREFIX_LENGTH + cid.length + 1) = seg ++ rest := by
    have hTalt : T = (otaTopicHead ++ cid ++ [slashChar]) ++ (seg ++ rest) := by
      simp [hT]
    have hlen : (otaTopicHead ++ cid ++ [slashChar]).length
        = OTA_TOPIC_PREFIX_LENGTH + cid.length + 1 := by
      simp [OTA_TOPIC_PREFIX_LENGTH]; omega
    rw [hTalt, ← hlen]
    exact List.drop_left _ _
  have hf2 : fieldLen (seg ++ rest) = seg.length := by
    rcases hrest with h | ⟨t, h⟩
    · subst h; simpa using fieldLen_no_slash seg hsegSlash
    · subst h; exact fieldLen_append_slash seg t hsegSlash
  simp only [getOtaMessageType, hpre, if_pos rfl, hdrop1, hf1, hdrop2, hf2,
    if_pos hcidpos, hid, eq_self_iff_true, if_true]
  by_cases hseg0 : seg = []
  · subst hseg0
    simp [segmentCategory]
  · have hsegpos : 0 < seg.length := List.length_pos.mpr hseg0
    have hjobs : cstrncmp (seg ++ rest) otaTopicJobs seg.length
        = cstrncmp seg otaTopicJobs seg.length :=
      cstrncmp_append_left seg rest otaTopicJobs seg.length le_rfl
    have hstream : cstrncmp (seg ++ rest) otaTopicStream seg.length
        = cstrncmp seg otaTopicStream seg.length :=
      cstrncmp_append_left seg rest otaTopicStream seg.length le_rfl
    have hjobsNul : nulChar ∉ otaTopicJobs := by decide
    have hstreamNul : nulChar ∉ otaTopicStream := by decide
    rw [if_pos hsegpos, hjobs, hstream]
    simp only [segmentCategory, if_neg hseg0]
    by_cases hj : seg = otaTopicJobs.take seg.length
    · rw [if_pos ((cstrncmp_eq_zero_iff_take_self seg otaTopicJobs hsegNul hjobsNul).mpr hj),
        if_pos hj]
    · rw [if_neg (fun h => hj ((cstrncmp_eq_zero_iff_take_self seg otaTopicJobs hsegNul hjobsNul).mp h)),
        if_neg hj]
      by_cases hs : seg = otaTopicStream.take seg.length
      · rw [if_pos ((cstrncmp_eq_zero_iff_take_self seg otaTopicStream hsegNul hstreamNul).mpr hs),
          if_pos hs]
      · rw [if_neg (fun h => hs ((cstrncmp_eq_zero_iff_take_self seg otaTopicStream hsegNul hstreamNul).mp h)),
          if_neg hs]

/-! ### Lemmas about the buffer pool -/

theorem bufferScan_all_used (k : Nat) :
    bufferScan (List.replicate k true) = (none, List.replicate k true) := by
  induction k with
  | zero => rfl
  | succ m ih => simp [List.replicate_succ, bufferScan, ih]

theorem bufferScan_first_free (k : Nat) (rest : List Bool) :
    bufferScan (List.replicate k true ++ false :: rest)
      = (some k, List.replicate k true ++ true :: rest) := by
  induction k with
  | zero => simp [bufferScan]
  | succ m ih => simp [List.replicate_succ, bufferScan, ih]

theorem runBufferGets_fills (n : Nat) : ∀ k : Nat,
    runBufferGets n (List.replicate k true ++ List.replicate n false)
      = ((List.range' k n).map Option.some, List.replicate (k + n) true) := by
  induction n with
  | zero => intro k; simp [runBufferGets]
  | succ m ih =>
    intro k
    have hstep : List.replicate k true ++ List.replicate (m + 1) false
        = List.replicate k true ++ false :: List.replicate m false := by
      simp [List.replicate_succ]
    have hmerge : List.replicate k true ++ true :: List.replicate m false
        = List.replicate (k + 1) true ++ List.replicate m false := by
      simp [List.replicate_succ', List.append_assoc]
    simp only [runBufferGets, prvOTAEventBufferGet, if_pos rfl, eq_self_iff_true,
      if_true, hstep, bufferScan_first_free, hmerge, ih (k + 1)]
    have harith : k + 1 + m = k + (m + 1) := by omega
    rw [List.range'_succ, List.map_cons, harith]

theorem replicate_set_decomp (N i : Nat) (h : i < N) :
    (List.replicate N true).set i false
      = List.replicate i true ++ false :: List.replicate (N - i - 1) true := by
  induction i generalizing N with
  | zero =>
    cases N with
    | zero => omega
    | succ m => simp [List.replicate_succ]
  | succ j ih =>
    cases N with
    | zero => omega
    | succ m =>
      have hj : j < m := by omega
      simp only [List.replicate_succ, List.set, ih m hj]
      simp

theorem set_false_of_get_false (l : List Bool) (i : Nat) (h : l.get? i = some false) :
    l.set i false = l := by
  induction l generalizing i with
  | nil => simp at h
  | cons b t ih =>
    cases i with
    | zero =>
      simp only [List.get?] at h
      injection h with h
      simp [List.set, h]
    | succ j =>
      simp only [List.get?] at h
      simp [List.set, ih j h]

/-! ### Claim theorems -/

/-- C1: the claim says a job message whose job id carries the reserved
`"AFR_OTA"` leading literal acquires a pool buffer and enqueues a
job-document-received event to the OTA agent.  In the source the branch
condition at line 1081 passes `strlen("AFR_OTA") == 0` (which is 0) as
the `strncmp` length and uses the raw `strncmp` result (always 0 for
length 0) as the truth value, so the OTA branch is unreachable: every job
message — the concrete `"AFR_OTA-0123"` one included — is handled on the
custom-job path, contradicting the claim and the code's own comments. -/
theorem C1_ota_branch_unreachable :
    (∀ (pJobId : List Char) (api : JobsTopic_t) (buf : Bool),
        prvProcessIncomingJobMessage pJobId api buf ≠ otaEnqueue ∧
        prvProcessIncomingJobMessage pJobId api buf ≠ otaDrop) ∧
    prvProcessIncomingJobMessage "AFR_OTA-0123".toList JobsDescribeSuccess true
      = handleNextJob := by
  constructor
  · intro pJobId api buf
    have hcond : ¬ (cstrncmp pJobId afrOta (if afrOta.length = 0 then 1 else 0) ≠ 0) := by
      rw [(by decide : (if afrOta.length = 0 then 1 else 0) = 0), cstrncmp_zero]
      simp
    unfold prvProcessIncomingJobMessage
    rw [if_neg hcond]
    cases api <;> exact (by decide)
  · decide

/-- C2 counterexample: for the job document whose `action` value is the
unknown string `"bogus"`, the dispatcher publishes no status report at
all (in particular no FAILED report), refuting the claim that an unknown
action reports FAILED immediately. -/
theorem C2_unknown_action_counterexample :
    prvGetAction "bogus".toList = JOB_ACTION_UNKNOWN ∧
    JobStatus.FAILED ∉
      (prvProcessJobDocument ⟨some "bogus".toList, some "m".toList, some "t".toList⟩ true).reports := by
  decide

/-- C2 (amended): a missing `action` key reports FAILED immediately, but
an unknown action value produces no status report: it is only logged via
`configPRINTF` and the dispatcher performs no other effect. -/
theorem C2_missing_action_fails_unknown_action_logs :
    (∀ (doc : JobDoc) (relayOk : Bool), doc.action = none →
        prvProcessJobDocument doc relayOk = ⟨[FAILED], false, false, false⟩) ∧
    (∀ (doc : JobDoc) (a : List Char) (relayOk : Bool), doc.action = some a →
        prvGetAction a = JOB_ACTION_UNKNOWN →
        prvProcessJobDocument doc relayOk = ⟨[], false, false, false⟩) := by
  constructor
  · intro doc relayOk h
    simp [prvProcessJobDocument, h]
  · intro doc a relayOk h hact
    simp [prvProcessJobDocument, h, hact]

/-- C2 witness: the amended theorem applied to concrete documents. -/
theorem C2_witness :
    prvProcessJobDocument ⟨none, none, none⟩ true = ⟨[FAILED], false, false, false⟩ ∧
    prvProcessJobDocument ⟨some "bogus".toList, none, none⟩ true = ⟨[], false, false, false⟩ :=
  ⟨C2_missing_action_fails_unknown_action_logs.1 ⟨none, none, none⟩ true rfl,
   C2_missing_action_fails_unknown_action_logs.2 ⟨some "bogus".toList, none, none⟩
     "bogus".toList true rfl (by decide)⟩

/-- C3 counterexample: when the publish command was enqueued successfully
and the bounded wait times out, `prvMQTTPublish` synthesizes
`MQTTSendFailed`, not the receive-failed code the claim states for all
three operations. -/
theorem C3_publish_timeout_counterexample :
    prvMQTTPublishMqttStatus ⟨MQTTSuccess, none⟩ = MQTTSendFailed ∧
    MQTTSendFailed ≠ MQTTRecvFailed := by
  decide

/-- C3 (amended): on an enqueued-then-timed-out operation, subscribe and
unsubscribe synthesize `MQTTRecvFailed` while publish synthesizes
`MQTTSendFailed`; each synthesized code is distinct from `MQTTSuccess`. -/
theorem C3_timeout_results :
    ∀ env : AgentEnv, env.enqueueStatus = MQTTSuccess → env.notifyResult = none →
      prvSubscribeToTopic env = MQTTRecvFailed ∧
      prvUnSubscribeFromTopic env = MQTTRecvFailed ∧
      prvMQTTPublishMqttStatus env = MQTTSendFailed ∧
      MQTTRecvFailed ≠ MQTTSuccess ∧ MQTTSendFailed ≠ MQTTSuccess := by
  intro env h1 h2
  refine ⟨?_, ?_, ?_, by decide, by decide⟩ <;>
    simp [prvSubscribeToTopic, prvUnSubscribeFromTopic, prvMQTTPublishMqttStatus, h1, h2]

/-- C3 witness: the amended theorem at the concrete timed-out environment. -/
theorem C3_witness :
    prvSubscribeToTopic ⟨MQTTSuccess, none⟩ = MQTTRecvFailed ∧
    prvUnSubscribeFromTopic ⟨MQTTSuccess, none⟩ = MQTTRecvFailed ∧
    prvMQTTPublishMqttStatus ⟨MQTTSuccess, none⟩ = MQTTSendFailed ∧
    MQTTRecvFailed ≠ MQTTSuccess ∧ MQTTSendFailed ≠ MQTTSuccess :=
  C3_timeout_results ⟨MQTTSuccess, none⟩ rfl rfl

/-- C4 counterexample: releasing slot 0 of a one-slot pool whose slot is
already free returns normally (`some`, no assertion failure) and leaves
the slot free — the double release is silently ignored, refuting the
claim that it triggers a fatal assertion. -/
theorem C4_double_release_counterexample :
    prvOTAEventBufferFree true [false] 0 = some [false] := by
  decide

/-- C4 (amended): `prvOTAEventBufferFree` contains no assertion; releasing
a slot that is already free returns normally and leaves the pool
unchanged (the `bufferUsed` flag is simply written false again). -/
theorem C4_double_release_silently_ignored :
    ∀ (pool : List Bool) (i : Nat), pool.get? i = some false →
      prvOTAEventBufferFree true pool i = some pool := by
  intro pool i h
  simp [prvOTAEventBufferFree, set_false_of_get_false pool i h]

/-- C4 witness: the amended theorem at a concrete pool. -/
theorem C4_witness :
    prvOTAEventBufferFree true [true, false] 1 = some [true, false] :=
  C4_double_release_silently_ignored [true, false] 1 (by decide)

/-- C5 counterexample: with thing name `thing`, the topic
`$aws/things/thing/job` has a well-formed, non-empty category segment
`job` that is neither the jobs keyword nor the stream keyword, yet the
classifier returns the job category (the keyword comparison is bounded by
the segment's own length), refuting the claim that any unknown non-empty
category segment yields Unrecognized. -/
theorem C5_unknown_segment_counterexample :
    getOtaMessageType "thing".toList "$aws/things/thing/job".toList = OtaMessageTypeJob ∧
    "job".toList ≠ otaTopicJobs ∧ "job".toList ≠ otaTopicStream ∧ "job".toList ≠ [] := by
  decide

/-- C5 (amended): on a topic made of the fixed leading literal, the
device identity, and a category segment (with optional sub-path), the
classifier returns the job category exactly when the segment is a
non-empty leading slice of `jobs`, the stream category exactly when it is
a non-empty leading slice of `streams`, and Unrecognized otherwise; the
two known outcomes are mutually exclusive for any single topic. -/
theorem C5_classifier_on_matching_topics (cid seg rest : List Char)
    (hcid0 : cid ≠ []) (hcidSlash : slashChar ∉ cid) (hcidNul : nulChar ∉ cid)
    (hsegSlash : slashChar ∉ seg) (hsegNul : nulChar ∉ seg)
    (hrest : rest = [] ∨ ∃ t, rest = slashChar :: t) :
    getOtaMessageType cid (otaTopicHead ++ cid ++ slashChar :: (seg ++ rest))
      = segmentCategory seg ∧
    ¬ (segmentCategory seg = OtaMessageTypeJob ∧ segmentCategory seg = OtaMessageTypeStream) := by
  refine ⟨getOtaMessageType_structured cid seg rest hcid0 hcidSlash hcidNul
    hsegSlash hsegNul hrest, ?_⟩
  rintro ⟨h1, h2⟩
  rw [h1] at h2
  exact absurd h2 (by decide)

/-- C5 witness: the amended theorem on a concrete topic whose category
segment `str` is a proper leading slice of `streams`. -/
theorem C5_witness :
    getOtaMessageType "thing".toList
        (otaTopicHead ++ "thing".toList ++ slashChar :: ("str".toList ++ []))
      = OtaMessageTypeStream :=
  ((C5_classifier_on_matching_topics "thing".toList "str".toList []
      (by decide) (by decide) (by decide) (by decide) (by decide) (Or.inl rfl)).1).trans
    (by decide)

/-- C6: for a job document with the `publish` action, a missing `topic`
or `message` field reports FAILED with no relay publish attempted; when
both fields are present the relay publish is attempted and SUCCEEDED is
reported regardless of the relay result, a failed relay only setting the
process-level error flag. -/
theorem C6_publish_relay (doc : JobDoc) (a : List Char) (relayOk : Bool)
    (ha : doc.action = some a) (hact : prvGetAction a = JOB_ACTION_PUBLISH) :
    ((doc.topic = none ∨ doc.message = none) →
        prvProcessJobDocument doc relayOk = ⟨[FAILED], false, false, false⟩) ∧
    (∀ t m, doc.topic = some t → doc.message = some m →
        prvProcessJobDocument doc relayOk = ⟨[SUCCEEDED], true, !relayOk, false⟩) := by
  constructor
  · rintro (h | h) <;>
      · rcases doc with ⟨da, dm, dt⟩
        simp only at ha h
        subst ha
        first
          | (subst h; cases dm <;> simp [prvProcessJobDocument, hact])
          | (subst h; cases dt <;> simp [prvProcessJobDocument, hact])
  · intro t m ht hm
    rcases doc with ⟨da, dm, dt⟩
    simp only at ha ht hm
    subst ha; subst ht; subst hm
    simp [prvProcessJobDocument, hact]

/-- C6 witness: the theorem at a concrete document with both fields
present and a failing relay. -/
theorem C6_witness :
    prvProcessJobDocument ⟨some "publish".toList, some "m".toList, some "t".toList⟩ false
      = ⟨[SUCCEEDED], true, true, false⟩ :=
  (C6_publish_relay ⟨some "publish".toList, some "m".toList, some "t".toList⟩
      "publish".toList false rfl (by decide)).2 "t".toList "m".toList rfl rfl

/-- C7: starting from an all-free pool of `N` slots, `N` acquires succeed
(returning slots 0..N-1 in order) and leave every slot used, an acquire
on the full pool returns none and changes nothing, and after releasing
any slot `i` of the full pool a subsequent acquire succeeds and returns
exactly that slot, restoring the full pool. -/
theorem C7_pool_exhaustion_and_reuse (N : Nat) :
    runBufferGets N (List.replicate N false)
      = ((List.range N).map Option.some, List.replicate N true) ∧
    prvOTAEventBufferGet true (List.replicate N true) = (none, List.replicate N true) ∧
    (∀ i, i < N → ∃ p, prvOTAEventBufferFree true (List.replicate N true) i = some p ∧
        prvOTAEventBufferGet true p = (some i, List.replicate N true)) := by
  refine ⟨?_, ?_, ?_⟩
  · have h := runBufferGets_fills N 0
    simpa [List.range_eq_range'] using h
  · simp [prvOTAEventBufferGet, bufferScan_all_used]
  · intro i hi
    refine ⟨(List.replicate N true).set i false, by simp [prvOTAEventBufferFree], ?_⟩
    rw [replicate_set_decomp N i hi]
    have hmerge : List.replicate i true ++ true :: List.replicate (N - i - 1) true
        = List.replicate N true := by
      rw [← List.replicate_succ, ← List.replicate_add]
      congr 1
      omega
    simp only [prvOTAEventBufferGet, if_pos rfl, eq_self_iff_true, if_true,
      bufferScan_first_free, hmerge]

/-- C7 witness: the theorem at `N = 2`, releasing and re-acquiring slot 0. -/
theorem C7_witness :
    (0 : Nat) < 2 ∧
    (∃ p, prvOTAEventBufferFree true (List.replicate 2 true) 0 = some p ∧
        prvOTAEventBufferGet true p = (some 0, List.replicate 2 true)) :=
  ⟨by decide, (C7_pool_exhaustion_and_reuse 2).2.2 0 (by decide)⟩

/-- C8: every topic whose first characters do not spell the fixed leading
literal (topics shorter than the literal included, since their take is
shorter) classifies as Unrecognized, as does a topic with an empty
thing-name segment or an empty category segment; the classifier is a
total function, so no input faults. -/
theorem C8_unrecognized_topics :
    (∀ (clientId topic : List Char),
        topic.take OTA_TOPIC_PREFIX_LENGTH ≠ otaTopicHead →
        getOtaMessageType clientId topic = OtaNumOfMessageType) ∧
    (∀ (clientId rest : List Char),
        getOtaMessageType clientId (otaTopicHead ++ slashChar :: rest)
          = OtaNumOfMessageType) ∧
    (∀ (cid rest : List Char), cid ≠ [] → slashChar ∉ cid → nulChar ∉ cid →
        getOtaMessageType cid (otaTopicHead ++ cid ++ slashChar :: slashChar :: rest)
          = OtaNumOfMessageType) := by
  refine ⟨?_, ?_, ?_⟩
  · intro clientId topic h
    have hne : ¬ cstrncmp topic otaTopicHead OTA_TOPIC_PREFIX_LENGTH = 0 := by
      intro hc
      exact h ((cstrncmp_eq_zero_iff_take_kw topic otaTopicHead (by decide)).mp hc)
    unfold getOtaMessageType
    rw [if_neg hne]
  · intro clientId rest
    have hpre : cstrncmp (otaTopicHead ++ slashChar :: rest) otaTopicHead
        OTA_TOPIC_PREFIX_LENGTH = 0 :=
      (cstrncmp_eq_zero_iff_take_kw _ _ (by decide)).mpr (List.take_left _ _)
    have hdrop : (otaTopicHead ++ slashChar :: rest).drop OTA_TOPIC_PREFIX_LENGTH
        = slashChar :: rest := List.drop_left _ _
    simp only [getOtaMessageType, hpre, eq_self_iff_true, if_true, hdrop,
      fieldLen_slash_cons]
    simp
  · intro cid rest h0 hs hn
    have h := getOtaMessageType_structured cid [] (slashChar :: rest) h0 hs hn
      (by simp) (by simp) (Or.inr ⟨rest, rfl⟩)
    simpa [segmentCategory] using h

/-- C8 witness: the first part of the theorem at a concrete topic that
does not start with the literal. -/
theorem C8_witness :
    "nope/topic".toList.take OTA_TOPIC_PREFIX_LENGTH ≠ otaTopicHead ∧
    getOtaMessageType "thing".toList "nope/topic".toList = OtaNumOfMessageType :=
  ⟨by decide, C8_unrecognized_topics.1 "thing".toList "nope/topic".toList (by decide)⟩

/-- C9: when `getOtaMessageType` classifies the topic filter as
unrecognized, `prvMQTTSubscribe` hits `configASSERT` (modelled as `none`)
instead of returning; consequently any normal return — the
`OtaMqttSubscribeFailed` error included — is only reachable for topic
filters classified as jobs or streams. -/
theorem C9_subscribe_asserts_on_unrecognized (clientId pTopicFilter : List Char)
    (env : AgentEnv) :
    (getOtaMessageType clientId pTopicFilter = OtaNumOfMessageType →
        prvMQTTSubscribe clientId pTopicFilter env = none) ∧
    (∀ r, prvMQTTSubscribe clientId pTopicFilter env = some r →
        getOtaMessageType clientId pTopicFilter ≠ OtaNumOfMessageType) := by
  have h1 : getOtaMessageType clientId pTopicFilter = OtaNumOfMessageType →
      prvMQTTSubscribe clientId pTopicFilter env = none := by
    intro h
    unfold prvMQTTSubscribe
    by_cases h0 : pTopicFilter.length = 0
    · rw [if_pos h0]
    · rw [if_neg h0, if_pos h]
  exact ⟨h1, fun r hr h => by rw [h1 h] at hr; exact Option.noConfusion hr⟩

/-- C9 witness: the theorem at a concrete unrecognized topic filter. -/
theorem C9_witness :
    getOtaMessageType "thing".toList "badtopic".toList = OtaNumOfMessageType ∧
    prvMQTTSubscribe "thing".toList "badtopic".toList ⟨MQTTSuccess, some MQTTSuccess⟩ = none :=
  ⟨by decide,
   (C9_subscribe_asserts_on_unrecognized "thing".toList "badtopic".toList
       ⟨MQTTSuccess, some MQTTSuccess⟩).1 (by decide)⟩

/-- C10: because `prvGetAction` bounds every keyword comparison by the
action's own length, every leading slice of `print` (the empty string
included) is classified PRINT, every proper leading slice of `publish`
that is not also a slice of `print` (length at least 2) is classified
PUBLISH, and every proper leading slice of `exit` (length 1 to 3) is
classified EXIT. -/
theorem C10_action_matching_by_own_length :
    (∀ n, n < 6 → prvGetAction (printKeyword.take n) = JOB_ACTION_PRINT) ∧
    (∀ n, n < 7 → 2 ≤ n → prvGetAction (publishKeyword.take n) = JOB_ACTION_PUBLISH) ∧
    (∀ n, n < 4 → 1 ≤ n → prvGetAction (exitKeyword.take n) = JOB_ACTION_EXIT) := by
  refine ⟨?_, ?_, ?_⟩ <;> decide

/-- C10 witness: the empty action string is classified PRINT. -/
theorem C10_witness : prvGetAction ([] : List Char) = JOB_ACTION_PRINT :=
  C10_action_matching_by_own_length.1 0 (by decide)

end OtaDemo
